import Mathlib

/- Verification development for the traverse test-automation framework.

   Embedded source:
   - src/driver/driver_interface.py : hook registry (`Hooks`), locator
     resolution (`DriverDecorators.check_locate_by`,
     `DriverActions._check_locate_by`), `fill_in_field`, `take_screenshot`;
   - src/utilities/database.py : the connection retry loop of
     `MySql.connect_to_db` / `PostGre.connect_to_db` and
     `execute_query_return_results`;
   - src/core/core_details.py : `TestDefinition` and its id counter.

   Python `False` used as an "absent" sentinel (for `self.hooks` and for the
   `locate_by` parameter) is modelled by `Option.none`; a raised Python
   exception is modelled by `Except.error`. -/

/-- Hook entry as stored in the hooks JSON file: an object with a `type` key
    (the locator kind) and a `value` key (the locator itself), per the file
    structure the `Hooks` class documents. -/
structure HookEntry where
  type : String
  value : String
deriving DecidableEq, Repr

/-- Errors raised by the embedded Python code paths.
    `noneTypeNoAttribute` is the AttributeError raised when `.get` is called
    on `None`, which is how `Hooks.get_hook` fails when
    `self.hooks.get(hook_name)` finds no entry for the name: the lookup
    failure the spec taxonomy calls a KeyError-kind error. -/
inductive PyError where
  | noneTypeNoAttribute
deriving DecidableEq, Repr

/-- Registry state of a `Hooks` object: the JSON dictionary loaded by
    `Hooks.__init__`, mapping each hook name to its entry. -/
abbrev HooksReg := List (String × HookEntry)

/-- Python `dict.get(key)`: the stored value, or `None` when the key is
    absent. -/
def dictGet (hooks : HooksReg) (name : String) : Option HookEntry :=
  (hooks.find? (fun p => p.1 == name)).map (fun p => p.2)

namespace Hooks

/-- Source `Hooks.get_hook`: `hook = self.hooks.get(hook_name)`, then
    `hook_type = hook.get('type')` and `hook_value = hook.get('value')`,
    returning the pair `(hook_type, hook_value)`. When the name is absent,
    `hook` is `None` and the attribute access on it raises. -/
def get_hook (hooks : HooksReg) (hook_name : String) :
    Except PyError (String × String) :=
  match dictGet hooks hook_name with
  | some hook => Except.ok (hook.type, hook.value)
  | none => Except.error PyError.noneTypeNoAttribute

/-- Source `Hooks.get_hook_type`: first component of `get_hook`. -/
def get_hook_type (hooks : HooksReg) (hook_name : String) :
    Except PyError String :=
  (get_hook hooks hook_name).map (fun p => p.1)

/-- Source `Hooks.get_hook_value`: second component of `get_hook`. -/
def get_hook_value (hooks : HooksReg) (hook_name : String) :
    Except PyError String :=
  (get_hook hooks hook_name).map (fun p => p.2)

end Hooks

/-- One call issued to the underlying selenium driver or action chain by a
    DriverActions interaction method. The `locate_by` argument is `none` when
    the Python value `False` flows through unresolved. -/
inductive DriverOp where
  | waitVisible (locate_by : Option String) (hook_value : String)
  | waitInvisible (locate_by : Option String) (hook_value : String)
  | findElementClick (locate_by : Option String) (hook_value : String)
  | moveToElementPerform (locate_by : Option String) (hook_value : String)
  | findElementText (locate_by : Option String) (hook_value : String)
  | findElementSendKeys (input_text : String) (locate_by : Option String)
      (hook_value : String)
deriving DecidableEq, Repr

/-- The interaction methods of `DriverActions` that carry the
    `DriverDecorators.check_locate_by` decorator. -/
inductive WrappedMethod where
  | wait_for_element_visible
  | wait_until_element_invisible
  | select_element
  | hover_over_element
  | get_element_text
deriving DecidableEq, Repr

/-- Body of each decorator-wrapped method, as invoked with arguments
    `(hook_value, locate_by)`: the driver calls it issues, and its Python
    return value (`get_element_text` returns the element text, read from the
    oracle `txt`; the other bodies return `None`). -/
def wrappedBody (txt : Option String → String → String) :
    WrappedMethod → String → Option String → List DriverOp × Option String
  | WrappedMethod.wait_for_element_visible, hv, lb =>
      ([DriverOp.waitVisible lb hv], none)
  | WrappedMethod.wait_until_element_invisible, hv, lb =>
      ([DriverOp.waitInvisible lb hv], none)
  | WrappedMethod.select_element, hv, lb =>
      ([DriverOp.findElementClick lb hv], none)
  | WrappedMethod.hover_over_element, hv, lb =>
      ([DriverOp.moveToElementPerform lb hv], none)
  | WrappedMethod.get_element_text, hv, lb =>
      ([DriverOp.findElementText lb hv], some (txt lb hv))

namespace DriverDecorators

/-- Source `DriverDecorators.check_locate_by`, wrapper `_check_if_hook_needed`
    applied to method `m` on a DriverActions object whose `self.hooks` field is
    `hooks` (`none` models the Python `False` set when no hook file was given).
    Mirrors the source exactly: only when a registry is present AND
    `locate_by is False` does the wrapper look up the hook type and value and
    invoke the wrapped body with them; on every other path the body is never
    invoked and the wrapper falls off the end, returning `None` with no driver
    interaction. Result: the driver calls issued, paired with the wrapper's
    return value. -/
def check_locate_by (txt : Option String → String → String) (m : WrappedMethod)
    (hooks : Option HooksReg) (hook_value : String)
    (locate_by : Option String) : Except PyError (List DriverOp × Option String) :=
  match hooks with
  | some hks =>
    match locate_by with
    | none => do
      let lb ← Hooks.get_hook_type hks hook_value
      let hv ← Hooks.get_hook_value hks hook_value
      Except.ok (wrappedBody txt m hv (some lb))
    | some _ => Except.ok ([], none)
  | none => Except.ok ([], none)

end DriverDecorators

namespace DriverActions

/-- Source `DriverActions._check_locate_by`: when a registry is present and
    `locate_by is False`, it returns the registry pair
    `locate_by, hook_value = self.hooks.get_hook(hook_value)`; on every other
    path it returns the arguments `(locate_by, hook_value)` unchanged. -/
def _check_locate_by (hooks : Option HooksReg) (hook_value : String)
    (locate_by : Option String) : Except PyError (Option String × String) :=
  match hooks, locate_by with
  | some hks, none =>
      (Hooks.get_hook hks hook_value).map (fun p => (some p.1, p.2))
  | _, _ => Except.ok (locate_by, hook_value)

/-- Source `DriverActions.fill_in_field`: resolves through `_check_locate_by`
    and then issues
    `self.driver.find_element(locate_by, hook_value).send_keys(input_text)`. -/
def fill_in_field (hooks : Option HooksReg) (input_text : String)
    (hook_value : String) (locate_by : Option String) :
    Except PyError (List DriverOp) :=
  (_check_locate_by hooks hook_value locate_by).map
    (fun p => [DriverOp.findElementSendKeys input_text p.1 p.2])

/-- Source `DriverActions.take_screenshot` with an explicit directory. The
    directory is modelled by the list of file names it currently contains:
    `num_of_screenshots = len(os.listdir(directory))`, and
    `save_screenshot` writes the file `file_name-num_of_screenshots.png`
    into it. Returns the written file name and the directory contents after
    the write. -/
def take_screenshot (dirFiles : List String) (file_name : String) :
    String × List String :=
  let num_of_screenshots := dirFiles.length
  let written := file_name ++ "-" ++ toString num_of_screenshots ++ ".png"
  (written, dirFiles ++ [written])

end DriverActions

/-- Database-layer errors of src/utilities/database.py.
    `connectionExhausted` is the exception raised by the retry loops after the
    retry budget is spent (source message: Unable to connect to Database. See
    console logs.), the spec taxonomy's ConnectionExhaustedError.
    `returnedNothing` is `DatabaseReturnedNothingError`. -/
inductive DbError where
  | connectionExhausted
  | returnedNothing
deriving DecidableEq, Repr

/-- Observable event of a connection retry loop: a connection attempt with its
    0-based index, or a blocking `time.sleep(d)`. -/
inductive ConnEvent where
  | attempt (i : Nat)
  | sleep (d : Nat)
deriving DecidableEq, Repr

/-- Source local `retry_limit = 3` of both `connect_to_db` loops. -/
def retry_limit : Nat := 3

/-- Source local `delay = 2` of both `connect_to_db` loops. -/
def delay : Nat := 2

/-- The `while True` retry loop shared verbatim by `MySql.connect_to_db` and
    `PostGre.connect_to_db`, entered with counter `attempt`. The oracle
    `outcome` abstracts the connection target: `outcome i = some conn` when the
    underlying client call (optionally inside the SSH tunnel) returns `conn` on
    the attempt made with counter value `i`, and `none` when it raises.
    While `attempt <= retry_limit`, the loop tries the connection and returns
    it on success; on failure it increments `attempt`, warns, sleeps for
    `delay`, and iterates; once `attempt` exceeds `retry_limit` it raises.
    Returns the event trace together with the outcome. -/
def connectLoop {Conn : Type} (outcome : Nat → Option Conn) (attempt : Nat) :
    List ConnEvent × Except DbError Conn :=
  if _h : attempt ≤ retry_limit then
    match outcome attempt with
    | some conn => ([ConnEvent.attempt attempt], Except.ok conn)
    | none =>
      (ConnEvent.attempt attempt :: ConnEvent.sleep delay ::
          (connectLoop outcome (attempt + 1)).1,
        (connectLoop outcome (attempt + 1)).2)
  else ([], Except.error DbError.connectionExhausted)
termination_by retry_limit + 1 - attempt
decreasing_by all_goals omega

/-- Python test `raw_results is []`: identity comparison against a freshly
    allocated empty list literal; no pre-existing object is ever identical to
    it, so the test is always `False` (for empty and non-empty lists alike). -/
def pyIsEmptyListLiteral {Row : Type} (_ : List Row) : Bool := false

namespace MySql

/-- Source `MySql.connect_to_db`: `attempt = 0`, `retry_limit = 3`,
    `delay = 2`, then the retry loop. The connection target (connection info
    and `use_ssh` mode) is abstracted by the attempt oracle. -/
def connect_to_db {Conn : Type} (outcome : Nat → Option Conn) :
    List ConnEvent × Except DbError Conn :=
  connectLoop outcome 0

/-- Source `MySql.execute_query_return_results`:
    `raw_results = cursor.fetchall()` is the row list the query produced;
    `if raw_results is []` raises `DatabaseReturnedNothingError`, else the
    rows are returned. -/
def execute_query_return_results {Row : Type} (raw_results : List Row) :
    Except DbError (List Row) :=
  if pyIsEmptyListLiteral raw_results then Except.error DbError.returnedNothing
  else Except.ok raw_results

end MySql

namespace PostGre

/-- Source `PostGre.connect_to_db`: the same loop with the same constants,
    over the psycopg2 connection call. -/
def connect_to_db {Conn : Type} (outcome : Nat → Option Conn) :
    List ConnEvent × Except DbError Conn :=
  connectLoop outcome 0

/-- Source `PostGre.execute_query_return_results`: same always-false
    `results is []` test, then the rows are returned (the connection is
    closed on both paths, which does not affect the returned value). -/
def execute_query_return_results {Row : Type} (results : List Row) :
    Except DbError (List Row) :=
  if pyIsEmptyListLiteral results then Except.error DbError.returnedNothing
  else Except.ok results

end PostGre

namespace TestStatus

/-- Source `TestStatus` holding-class values. -/
def UNTESTED : String := "Untested"

def PASSED : String := "Passed"

def FAILED : String := "Failed"

def BLOCKED : String := "Blocked"

def RETEST : String := "Retest"

def IN_PROGRESS : String := "InProgress"

end TestStatus

/-- Source `TestDefinition` record: the fields set by `__init__`. Optional
    fields start as Python `None` (`Option.none`). -/
structure TestDefinition where
  test_id : Nat
  test_pack : Option String
  test_suite : Option String
  test_name : Option String
  platform : Option String
  capability : Option String
  test_configuration : Option String
  test_status : String
  test_start_time : Option String
  test_end_time : Option String
  comments : Option String
  screenshot_dir : Option String
deriving DecidableEq, Repr

/-- Source `TestDefinition.__init__`: `self.test_id = next(self.id_itr)` draws
    from the class-level `itertools.count()` whose state is `counter`; every
    other field gets its initial value. Returns the record and the advanced
    counter state. -/
def TestDefinition.construct (counter : Nat) : TestDefinition × Nat :=
  (⟨counter, none, none, none, none, none, none, TestStatus.UNTESTED,
      none, none, none, none⟩,
    counter + 1)

/-- A sequence of `n` `TestDefinition` constructions in one process, starting
    from counter state `counter`, in construction order. -/
def constructSeq (counter : Nat) : Nat → List TestDefinition
  | 0 => []
  | n + 1 =>
    let r := TestDefinition.construct counter
    r.1 :: constructSeq r.2 n

/-- Predicate picking the connection-attempt events out of a trace. -/
def ConnEvent.isAttempt : ConnEvent → Bool
  | ConnEvent.attempt _ => true
  | ConnEvent.sleep _ => false

@[simp] theorem ConnEvent.isAttempt_attempt (i : Nat) :
    (ConnEvent.attempt i).isAttempt = true := rfl

@[simp] theorem ConnEvent.isAttempt_sleep (d : Nat) :
    (ConnEvent.sleep d).isAttempt = false := rfl

/-- Unfolding lemma: a failing attempt within the retry budget records the
    attempt, sleeps for the delay, and continues with counter `a + 1`. -/
theorem connectLoop_fail {Conn : Type} (outcome : Nat → Option Conn) (a : Nat)
    (ha : a ≤ retry_limit) (ho : outcome a = none) :
    connectLoop outcome a =
      (ConnEvent.attempt a :: ConnEvent.sleep delay ::
          (connectLoop outcome (a + 1)).1,
        (connectLoop outcome (a + 1)).2) := by
  conv_lhs => unfold connectLoop
  simp [ha, ho]

/-- Unfolding lemma: a successful attempt within the retry budget returns the
    connection at once. -/
theorem connectLoop_succ {Conn : Type} (outcome : Nat → Option Conn) (a : Nat)
    (conn : Conn) (ha : a ≤ retry_limit) (ho : outcome a = some conn) :
    connectLoop outcome a = ([ConnEvent.attempt a], Except.ok conn) := by
  conv_lhs => unfold connectLoop
  simp [ha, ho]

/-- Unfolding lemma: once the counter exceeds the retry limit the loop raises
    the exhaustion error without a further attempt. -/
theorem connectLoop_exhaust {Conn : Type} (outcome : Nat → Option Conn) (a : Nat)
    (ha : ¬a ≤ retry_limit) :
    connectLoop outcome a = ([], Except.error DbError.connectionExhausted) := by
  conv_lhs => unfold connectLoop
  simp [ha]

/-- Trace of the loop entered at counter `j` when attempts `j..j+m-1` fail and
    attempt `j + m` succeeds, all within the retry budget. -/
theorem connectLoop_trace {Conn : Type} (outcome : Nat → Option Conn)
    (conn : Conn) (j m : Nat) (hjm : j + m ≤ retry_limit)
    (hfail : ∀ i, j ≤ i → i < j + m → outcome i = none)
    (hsucc : outcome (j + m) = some conn) :
    connectLoop outcome j =
      ((List.range' j m).flatMap
          (fun i => [ConnEvent.attempt i, ConnEvent.sleep delay]) ++
        [ConnEvent.attempt (j + m)], Except.ok conn) := by
  induction m generalizing j with
  | zero =>
    simpa using connectLoop_succ outcome j conn (by omega) (by simpa using hsucc)
  | succ n ih =>
    have hstep := ih (j + 1) (by omega)
      (fun i h1 h2 => hfail i (by omega) (by omega))
      (by have := hsucc; rw [show j + (n + 1) = j + 1 + n by omega] at this; exact this)
    rw [connectLoop_fail outcome j (by omega) (hfail j le_rfl (by omega))]
    rw [hstep]
    simp [List.range'_succ, show j + (n + 1) = j + 1 + n by omega]

/-- Count of attempt events in the failed-attempts part of a trace. -/
theorem countP_attempt_flatMap (j m d : Nat) :
    (((List.range' j m).flatMap
        (fun i => [ConnEvent.attempt i, ConnEvent.sleep d])).countP
      (fun e => ConnEvent.isAttempt e)) = m := by
  induction m generalizing j with
  | zero => rfl
  | succ n ih =>
    simp [List.range'_succ, List.countP_cons, List.countP_append, ih]

/-- C2: for a connection target that always fails, both `MySql.connect_to_db`
    and `PostGre.connect_to_db` make exactly 4 connection attempts, each
    followed by the fixed delay of 2 time-units, and then fail with the
    connection-exhausted error. -/
theorem c2_connect_always_fails_four_attempts {Conn : Type}
    (outcome : Nat → Option Conn) (h : ∀ i, outcome i = none) :
    MySql.connect_to_db outcome =
      ([ConnEvent.attempt 0, ConnEvent.sleep 2, ConnEvent.attempt 1,
        ConnEvent.sleep 2, ConnEvent.attempt 2, ConnEvent.sleep 2,
        ConnEvent.attempt 3, ConnEvent.sleep 2],
        Except.error DbError.connectionExhausted) ∧
    PostGre.connect_to_db outcome =
      ([ConnEvent.attempt 0, ConnEvent.sleep 2, ConnEvent.attempt 1,
        ConnEvent.sleep 2, ConnEvent.attempt 2, ConnEvent.sleep 2,
        ConnEvent.attempt 3, ConnEvent.sleep 2],
        Except.error DbError.connectionExhausted) := by
  have key : connectLoop outcome 0 =
      ([ConnEvent.attempt 0, ConnEvent.sleep 2, ConnEvent.attempt 1,
        ConnEvent.sleep 2, ConnEvent.attempt 2, ConnEvent.sleep 2,
        ConnEvent.attempt 3, ConnEvent.sleep 2],
        Except.error DbError.connectionExhausted) := by
    rw [connectLoop_fail outcome 0 (by norm_num [retry_limit]) (h 0)]
    rw [show (0 : Nat) + 1 = 1 from rfl,
      connectLoop_fail outcome 1 (by norm_num [retry_limit]) (h 1)]
    rw [show (1 : Nat) + 1 = 2 from rfl,
      connectLoop_fail outcome 2 (by norm_num [retry_limit]) (h 2)]
    rw [show (2 : Nat) + 1 = 3 from rfl,
      connectLoop_fail outcome 3 (by norm_num [retry_limit]) (h 3)]
    rw [show (3 : Nat) + 1 = 4 from rfl,
      connectLoop_exhaust outcome 4 (by norm_num [retry_limit])]
    simp [delay]
  exact ⟨key, key⟩

/-- Witness for C2 at the concrete always-failing target. -/
theorem c2_witness :
    (∀ i : Nat, (fun _ : Nat => (none : Option Nat)) i = none) ∧
    MySql.connect_to_db (fun _ : Nat => (none : Option Nat)) =
      ([ConnEvent.attempt 0, ConnEvent.sleep 2, ConnEvent.attempt 1,
        ConnEvent.sleep 2, ConnEvent.attempt 2, ConnEvent.sleep 2,
        ConnEvent.attempt 3, ConnEvent.sleep 2],
        Except.error DbError.connectionExhausted) :=
  ⟨fun _ => rfl,
    (c2_connect_always_fails_four_attempts (fun _ : Nat => none)
      (fun _ => rfl)).1⟩

/-- C4: for a connection target failing on the first k-1 attempts and
    succeeding on attempt k (1 ≤ k ≤ 4), both connect variants return the live
    connection after exactly k attempts, with no delay after the successful
    attempt: the trace is k-1 failed attempts each followed by the fixed delay,
    ending in the successful attempt, and the attempt count is k. -/
theorem c4_connect_succeeds_attempt_k {Conn : Type}
    (outcome : Nat → Option Conn) (k : Nat) (conn : Conn)
    (hk1 : 1 ≤ k) (hk4 : k ≤ 4)
    (hfail : ∀ i, i < k - 1 → outcome i = none)
    (hsucc : outcome (k - 1) = some conn) :
    MySql.connect_to_db outcome =
      ((List.range (k - 1)).flatMap
          (fun i => [ConnEvent.attempt i, ConnEvent.sleep 2]) ++
        [ConnEvent.attempt (k - 1)], Except.ok conn) ∧
    PostGre.connect_to_db outcome =
      ((List.range (k - 1)).flatMap
          (fun i => [ConnEvent.attempt i, ConnEvent.sleep 2]) ++
        [ConnEvent.attempt (k - 1)], Except.ok conn) ∧
    ((MySql.connect_to_db outcome).1.countP
      (fun e => ConnEvent.isAttempt e)) = k := by
  have key := connectLoop_trace outcome conn 0 (k - 1)
    (by simp only [retry_limit]; omega)
    (fun i h1 h2 => hfail i (by omega))
    (by simpa using hsucc)
  have key2 : connectLoop outcome 0 =
      ((List.range (k - 1)).flatMap
          (fun i => [ConnEvent.attempt i, ConnEvent.sleep 2]) ++
        [ConnEvent.attempt (k - 1)], Except.ok conn) := by
    rw [key]
    simp [delay, List.range_eq_range']
  refine ⟨key2, key2, ?_⟩
  show (connectLoop outcome 0).1.countP (fun e => ConnEvent.isAttempt e) = k
  rw [key2, List.range_eq_range']
  simp only [List.countP_append, countP_attempt_flatMap]
  simp [List.countP_cons]
  omega

/-- Witness for C4 at a concrete target succeeding on its third attempt. -/
theorem c4_witness :
    (1 ≤ 3) ∧ (3 ≤ 4) ∧
    (∀ i, i < 3 - 1 →
      (fun i => if i < 2 then (none : Option Nat) else some 7) i = none) ∧
    ((fun i => if i < 2 then (none : Option Nat) else some 7) (3 - 1)
      = some 7) ∧
    MySql.connect_to_db (fun i => if i < 2 then (none : Option Nat) else some 7)
      = ((List.range (3 - 1)).flatMap
          (fun i => [ConnEvent.attempt i, ConnEvent.sleep 2]) ++
        [ConnEvent.attempt (3 - 1)], Except.ok 7) := by
  refine ⟨by norm_num, by norm_num, ?_, by norm_num, ?_⟩
  · intro i hi
    have h2 : i < 2 := by omega
    simp [h2]
  · exact (c4_connect_succeeds_attempt_k
      (fun i => if i < 2 then (none : Option Nat) else some 7) 3 7
      (by norm_num) (by norm_num)
      (fun i hi => by
        have h2 : i < 2 := by omega
        simp [h2])
      (by norm_num)).1

/-- C1 evaluation at the failing input: with a hook registry configured that
    even contains a hook named btn1, calling the decorator-wrapped
    select_element with the explicit kind xpath and value btn1 issues no
    driver call and returns None; the wrapped driver action is never invoked,
    so the call does not proceed with the pair (xpath, btn1). By contrast the
    non-decorator resolution path does return the explicit pair untouched. -/
theorem c1_explicit_kind_is_dropped_by_decorator :
    DriverDecorators.check_locate_by (fun _ _ => "") WrappedMethod.select_element
        (some [("btn1", HookEntry.mk "id" "login-button")]) "btn1"
        (some "xpath")
      = Except.ok ([], none) ∧
    DriverActions._check_locate_by
        (some [("btn1", HookEntry.mk "id" "login-button")]) "btn1"
        (some "xpath")
      = Except.ok (some "xpath", "btn1") :=
  ⟨rfl, rfl⟩

/-- C3 evaluation at the failing input: a query producing zero rows does not
    raise the returned-nothing error; both variants return the empty row list,
    because the Python test raw_results is a fresh empty-list literal compares
    object identity and is always False. -/
theorem c3_zero_rows_do_not_raise :
    MySql.execute_query_return_results ([] : List Nat) = Except.ok [] ∧
    PostGre.execute_query_return_results ([] : List Nat) = Except.ok [] :=
  ⟨rfl, rfl⟩

/-- C5: for every registry and every name present in it, Hooks.get_hook
    returns exactly the (type, value) pair stored under that name. -/
theorem c5_get_hook_returns_stored_pair (hooks : HooksReg) (name : String)
    (e : HookEntry) (h : dictGet hooks name = some e) :
    Hooks.get_hook hooks name = Except.ok (e.type, e.value) := by
  simp [Hooks.get_hook, h]

/-- Witness for C5 on a one-entry registry. -/
theorem c5_witness :
    dictGet [("login_button", HookEntry.mk "id" "btn1")] "login_button"
      = some (HookEntry.mk "id" "btn1") ∧
    Hooks.get_hook [("login_button", HookEntry.mk "id" "btn1")] "login_button"
      = Except.ok ("id", "btn1") :=
  ⟨rfl,
    c5_get_hook_returns_stored_pair [("login_button", HookEntry.mk "id" "btn1")]
      "login_button" (HookEntry.mk "id" "btn1") rfl⟩

/-- C6: the ids assigned by any number of sequential TestDefinition
    constructions are strictly increasing in construction order, and the list
    of assigned ids has no duplicates. -/
theorem c6_test_ids_strictly_increasing (counter n : Nat) :
    List.Pairwise (fun a b => a.test_id < b.test_id) (constructSeq counter n) ∧
    ((constructSeq counter n).map TestDefinition.test_id).Nodup := by
  have hmap : ∀ c m, (constructSeq c m).map TestDefinition.test_id
      = List.range' c m := by
    intro c m
    induction m generalizing c with
    | zero => rfl
    | succ p ih =>
      simp [constructSeq, TestDefinition.construct, List.range'_succ, ih]
  constructor
  · have h := List.pairwise_lt_range' counter n
    rw [← hmap counter n] at h
    exact (List.pairwise_map).mp h
  · rw [hmap counter n]
    exact List.nodup_range' counter n

/-- C7: take_screenshot writes the file named base-n.png where n is the count
    of files in the directory at call time; with 3 existing files it writes
    base-3.png, and an immediately following call, now seeing 4 files, writes
    base-4.png. -/
theorem c7_screenshot_uses_directory_count (dirFiles : List String)
    (f : String) :
    (DriverActions.take_screenshot dirFiles f).1
      = f ++ "-" ++ toString dirFiles.length ++ ".png" ∧
    (dirFiles.length = 3 →
      (DriverActions.take_screenshot dirFiles f).1 = f ++ "-3.png" ∧
      (DriverActions.take_screenshot
          (DriverActions.take_screenshot dirFiles f).2 f).1 = f ++ "-4.png") := by
  refine ⟨rfl, fun h3 => ⟨?_, ?_⟩⟩
  · show f ++ "-" ++ toString dirFiles.length ++ ".png" = f ++ "-3.png"
    rw [h3, String.append_assoc, String.append_assoc]
    congr 1
  · show f ++ "-" ++ toString (dirFiles ++
        [f ++ "-" ++ toString dirFiles.length ++ ".png"]).length ++ ".png"
      = f ++ "-4.png"
    rw [List.length_append, h3, String.append_assoc, String.append_assoc]
    congr 1
    show "-" ++ (toString (4 : Nat) ++ ".png") = "-4.png"
    rfl

/-- Witness for C7 on a directory holding 3 files. -/
theorem c7_witness :
    (["a.png", "b.png", "c.png"] : List String).length = 3 ∧
    (DriverActions.take_screenshot ["a.png", "b.png", "c.png"] "shot").1
      = "shot" ++ "-3.png" ∧
    (DriverActions.take_screenshot
        (DriverActions.take_screenshot ["a.png", "b.png", "c.png"] "shot").2
        "shot").1 = "shot" ++ "-4.png" :=
  ⟨rfl,
    ((c7_screenshot_uses_directory_count ["a.png", "b.png", "c.png"]
        "shot").2 rfl).1,
    ((c7_screenshot_uses_directory_count ["a.png", "b.png", "c.png"]
        "shot").2 rfl).2⟩

/-- C8 counterexample: with no registry configured and no explicit kind,
    fill_in_field is not a no-op; the unresolved pair (False, user-field) is
    forwarded and a driver call is issued. -/
theorem c8_counterexample_fill_in_field_acts :
    DriverActions.fill_in_field none "hello" "user-field" none
      = Except.ok [DriverOp.findElementSendKeys "hello" none "user-field"] ∧
    ([DriverOp.findElementSendKeys "hello" none "user-field"]
      : List DriverOp) ≠ [] :=
  ⟨rfl, by simp⟩

/-- C8 amended: with no registry configured and no explicit kind, every
    decorator-wrapped interaction call is a silent no-op issuing no driver
    call and returning None; fill_in_field, however, forwards the unresolved
    (False, value) pair to the driver and does perform a driver action. -/
theorem c8_amended_no_registry_no_kind (txt : Option String → String → String)
    (m : WrappedMethod) (hook_value : String) :
    DriverDecorators.check_locate_by txt m none hook_value none
      = Except.ok ([], none) ∧
    (∀ input_text, DriverActions.fill_in_field none input_text hook_value none
      = Except.ok [DriverOp.findElementSendKeys input_text none hook_value]) :=
  ⟨rfl, fun _ => rfl⟩

/-- C9: for every registry and every name absent from it, Hooks.get_hook
    fails: the None returned by the dictionary lookup makes the subsequent
    attribute access raise, the lookup error of the spec taxonomy. -/
theorem c9_get_hook_absent_fails (hooks : HooksReg) (name : String)
    (h : dictGet hooks name = none) :
    Hooks.get_hook hooks name = Except.error PyError.noneTypeNoAttribute := by
  simp [Hooks.get_hook, h]

/-- Witness for C9 on the empty registry. -/
theorem c9_witness :
    dictGet [] "missing" = none ∧
    Hooks.get_hook [] "missing"
      = Except.error PyError.noneTypeNoAttribute :=
  ⟨rfl, c9_get_hook_absent_fails [] "missing" rfl⟩

/-- C10: for every interaction method wrapped by check_locate_by, a call made
    with no hook registry configured issues no driver action and returns None,
    whether or not an explicit locator kind is supplied. -/
theorem c10_no_registry_noop_even_with_kind
    (txt : Option String → String → String) (m : WrappedMethod)
    (hook_value : String) (locate_by : Option String) :
    DriverDecorators.check_locate_by txt m none hook_value locate_by
      = Except.ok ([], none) := rfl
